import Mathlib

/-!
Shallow embedding of the checkout-to-payment reconciliation core of the
autoparts_kenya storefront (Django/DRF + Celery).

Modelling conventions:
* the relational store is a `DB` structure holding one list of rows per table;
* `Decimal` money values are rationals; timestamps are naturals;
* Django `Model.save`/`objects.create` become explicit state-passing
  functions; IntegrityError paths (unique constraints) return `Except.error`;
* each operation is translated from its source function:
  `orders/serializers.py` (checkout), `orders/models.py` (Order.save,
  OrderItem.save), `payments/tasks.py` (process_mpesa_callback),
  `payments/views.py` + `payments/utils.py` (STK push initiation),
  `products/tasks.py` and `autoparts_kenya/celery.py` (beat schedule),
  `core/utils.py` (totals).
-/

namespace AutopartsKenya

/-- `products.models.Product` — the fields the payment/checkout core touches.
`stock` and `reserved_stock` are Django `IntegerField`s; their
`MinValueValidator(0)` validators do not run on ORM `save()`, so the fields
are modelled as unconstrained integers. -/
structure Product where
  id : Nat
  name : String
  sku : String
  is_active : Bool
  price : ℚ
  discount_percentage : Nat
  stock : ℤ
  reserved_stock : ℤ
  deriving Repr, DecidableEq

/-- `Product.available_stock`: `max(0, self.stock - self.reserved_stock)`. -/
def Product.available_stock (p : Product) : ℤ :=
  max 0 (p.stock - p.reserved_stock)

/-- `Product.discounted_price`: price reduced by the discount percentage when
the percentage is non-zero (Python truthiness of the integer field). -/
def Product.discounted_price (p : Product) : ℚ :=
  if p.discount_percentage ≠ 0 then
    p.price - p.price * (p.discount_percentage : ℚ) / 100
  else
    p.price

/-- `orders.models.Order` — checkout unit with delivery snapshot, monetary
fields and the two status strings. `paid_at` is an optional timestamp. -/
structure Order where
  id : Nat
  user : Option Nat
  guest_email : String
  guest_phone : String
  order_number : String
  delivery_address : String
  delivery_city : String
  delivery_postal_code : String
  recipient_name : String
  recipient_phone : String
  subtotal : ℚ
  delivery_cost : ℚ
  total_amount : ℚ
  order_status : String
  payment_status : String
  customer_notes : String
  paid_at : Option Nat
  deriving Repr, DecidableEq

/-- `orders.models.OrderItem` — immutable snapshot line item. -/
structure OrderItem where
  order : Nat
  product : Option Nat
  product_name : String
  product_sku : String
  unit_price : ℚ
  quantity : ℤ
  line_total : ℚ
  deriving Repr, DecidableEq

/-- One entry of `CallbackMetadata.Item` in an M-Pesa STK callback payload.
Only the string payload of `Value` matters to the code path that is kept
(the receipt); the numeric `Amount` item feeds a local variable the task
never uses. -/
structure StkCallbackItem where
  name : String
  value : Option String
  deriving Repr, DecidableEq

/-- The `Body.stkCallback` object of an M-Pesa callback payload.
`checkoutRequestID` and `resultCode` are optional because the task reads
them with `dict.get` (absent keys yield `None`). -/
structure StkCallback where
  checkoutRequestID : Option String
  resultCode : Option ℤ
  resultDesc : String
  items : List StkCallbackItem
  deriving Repr, DecidableEq

/-- `payments.models.TransactionLog` — one row per gateway interaction. -/
structure TransactionLog where
  id : Nat
  order : Nat
  transaction_type : String
  merchant_request_id : String
  checkout_request_id : String
  phone_number : String
  amount : ℚ
  response_code : String
  response_description : String
  mpesa_receipt : String
  raw_response : Option StkCallback
  deriving Repr, DecidableEq

/-- The relational store: one list of rows per table, plus the
auto-increment counters for the two tables whose rows this core creates. -/
structure DB where
  products : List Product
  orders : List Order
  order_items : List OrderItem
  transactions : List TransactionLog
  next_order_id : Nat
  next_transaction_id : Nat
  deriving Repr, DecidableEq

/-- Decidable equality for `Except` results, used by concrete witnesses. -/
instance {e a : Type} [DecidableEq e] [DecidableEq a] : DecidableEq (Except e a) := fun x y =>
  match x, y with
  | Except.error u, Except.error v =>
      if h : u = v then Decidable.isTrue (by rw [h])
      else Decidable.isFalse (fun hc => h (by cases hc; rfl))
  | Except.error _, Except.ok _ => Decidable.isFalse (fun hc => Except.noConfusion hc)
  | Except.ok _, Except.error _ => Decidable.isFalse (fun hc => Except.noConfusion hc)
  | Except.ok u, Except.ok v =>
      if h : u = v then Decidable.isTrue (by rw [h])
      else Decidable.isFalse (fun hc => h (by cases hc; rfl))

/-- `UPDATE ... WHERE id = pid` on the products table: Django `save()` writes
the in-memory instance into the row with the matching primary key. -/
def updateProductRow (ps : List Product) (pid : Nat) (f : Product → Product) : List Product :=
  ps.map (fun p => if p.id == pid then f p else p)

/-- `UPDATE ... WHERE id = oid` on the orders table (row replacement). -/
def updateOrderRow (os : List Order) (oid : Nat) (o' : Order) : List Order :=
  os.map (fun x => if x.id == oid then o' else x)

/-- `UPDATE ... WHERE id = tid` on the transaction-log table. -/
def updateTransactionRow (ts : List TransactionLog) (tid : Nat) (t' : TransactionLog) :
    List TransactionLog :=
  ts.map (fun x => if x.id == tid then t' else x)

/-- `settings.DELIVERY_BASE_RATE = 200` (KSh). -/
def DELIVERY_BASE_RATE : ℚ := 200

/-- `settings.LOW_STOCK_THRESHOLD = 10`. -/
def LOW_STOCK_THRESHOLD : ℤ := 10

/-- Result triple of `core.utils.calculate_order_total_with_delivery`. -/
structure OrderTotals where
  subtotal : ℚ
  delivery_cost : ℚ
  total : ℚ
  deriving Repr, DecidableEq

/-- `core.utils.calculate_order_total_with_delivery`.  The delivery cost it
reads from `calculate_delivery_time` is the flat `DELIVERY_BASE_RATE`
regardless of city and delivery type (the city/type table only affects the
estimated dates), so the two string arguments do not influence the result. -/
def calculate_order_total_with_delivery (subtotal : ℚ)
    (_destination_city _delivery_type : String) : OrderTotals :=
  { subtotal := subtotal
    delivery_cost := DELIVERY_BASE_RATE
    total := subtotal + DELIVERY_BASE_RATE }

/-- `Order.save`'s order-number generation: `'ORD-' + now().strftime(...)`.
The second-resolution wall-clock string is modelled as the decimal rendering
of the `Nat` timestamp. -/
def gen_order_number (now : Nat) : String :=
  "ORD-" ++ toString now

/-- `orders.models.Order.save`: stamp `order_number` when it is empty, then
INSERT (new primary key) or UPDATE (existing primary key).  The database
`unique=True` constraint on `order_number` rejects a write that would leave
two rows with the same number. -/
def order_save (db : DB) (o : Order) (now : Nat) : Except String (DB × Order) :=
  let o' := if o.order_number = "" then { o with order_number := gen_order_number now } else o
  if db.orders.any (fun x => x.id == o'.id) then
    if db.orders.any (fun x => x.id != o'.id && x.order_number == o'.order_number) then
      Except.error "IntegrityError: duplicate order_number"
    else
      Except.ok ({ db with orders := updateOrderRow db.orders o'.id o' }, o')
  else
    if db.orders.any (fun x => x.order_number == o'.order_number) then
      Except.error "IntegrityError: duplicate order_number"
    else
      Except.ok ({ db with orders := db.orders ++ [o'] }, o')

/-- One entry of the checkout request's `items` list. -/
structure CartItem where
  product_id : Nat
  quantity : ℤ
  deriving Repr, DecidableEq

/-- The validated fields of `OrderCreateSerializer` plus the requesting user
(`request.user` when authenticated, else `none` for guests). -/
structure CheckoutInput where
  items : List CartItem
  delivery_address : String
  delivery_city : String
  delivery_postal_code : String
  recipient_name : String
  recipient_phone : String
  guest_email : String
  customer_notes : String
  delivery_type : String
  user : Option Nat
  deriving Repr, DecidableEq

/-- The validation / integrity failures of the checkout path. -/
inductive CheckoutError where
  | invalidQuantity (pid : Nat)
  | productUnavailable (pid : Nat)
  | insufficientStock (pid : Nat)
  | productMissing (pid : Nat)
  | emptyCart
  | missingGuestEmail
  | integrityError
  deriving Repr, DecidableEq

/-- Per-item validation of `OrderItemCreateSerializer`: the field bounds
`min_value=1, max_value=100` on `quantity`, then `validate_product_id`
(product exists and is active), then `validate` (available stock covers the
requested quantity, looked up by id alone). -/
def validate_cart_item (db : DB) (it : CartItem) : Except CheckoutError Unit :=
  if it.quantity < 1 ∨ 100 < it.quantity then
    Except.error (CheckoutError.invalidQuantity it.product_id)
  else if (db.products.find? (fun p => p.id == it.product_id && p.is_active)).isNone then
    Except.error (CheckoutError.productUnavailable it.product_id)
  else
    match db.products.find? (fun p => p.id == it.product_id) with
    | none => Except.error (CheckoutError.productMissing it.product_id)
    | some p =>
        if p.available_stock < it.quantity then
          Except.error (CheckoutError.insufficientStock it.product_id)
        else
          Except.ok ()

/-- Validate every cart line in order (DRF validates the child serializers
of the `items` field before the parent `validate`). -/
def validate_items (db : DB) : List CartItem → Except CheckoutError Unit
  | [] => Except.ok ()
  | it :: rest =>
      match validate_cart_item db it with
      | Except.error e => Except.error e
      | Except.ok _ => validate_items db rest

/-- `OrderCreateSerializer.validate`: non-empty cart, then guest checkout
requires a non-empty `guest_email`. -/
def validate_checkout (db : DB) (inp : CheckoutInput) : Except CheckoutError Unit :=
  match validate_items db inp.items with
  | Except.error e => Except.error e
  | Except.ok _ =>
      if inp.items.isEmpty then
        Except.error CheckoutError.emptyCart
      else if inp.user.isNone ∧ inp.guest_email = "" then
        Except.error CheckoutError.missingGuestEmail
      else
        Except.ok ()

/-- One entry of the serializer's `order_items_data` list: the in-memory
`Product` instance fetched in the pricing loop (a snapshot of the row as of
that query) plus the snapshot fields for the future `OrderItem`. -/
structure OrderItemData where
  product : Product
  product_name : String
  product_sku : String
  unit_price : ℚ
  quantity : ℤ
  deriving Repr, DecidableEq

/-- The pricing loop of `OrderCreateSerializer.create`: for each cart line,
fetch the product by id (`DoesNotExist` aborts before any write), snapshot
name/sku/discounted price, and accumulate `subtotal += unit_price * qty`. -/
def build_order_items_data (db : DB) : List CartItem → Except CheckoutError (List OrderItemData × ℚ)
  | [] => Except.ok ([], 0)
  | it :: rest =>
      match db.products.find? (fun p => p.id == it.product_id) with
      | none => Except.error (CheckoutError.productMissing it.product_id)
      | some p =>
          match build_order_items_data db rest with
          | Except.error e => Except.error e
          | Except.ok (ds, sub) =>
              Except.ok
                ({ product := p
                   product_name := p.name
                   product_sku := p.sku
                   unit_price := p.discounted_price
                   quantity := it.quantity } :: ds,
                 p.discounted_price * (it.quantity : ℚ) + sub)

/-- Build the `OrderItem` row created for one `order_items_data` entry;
`OrderItem.save` computes `line_total = unit_price * quantity`. -/
def mk_order_item (oid : Nat) (d : OrderItemData) : OrderItem :=
  { order := oid
    product := some d.product.id
    product_name := d.product_name
    product_sku := d.product_sku
    unit_price := d.unit_price
    quantity := d.quantity
    line_total := d.unit_price * (d.quantity : ℚ) }

/-- The item-creation loop of `OrderCreateSerializer.create`: per entry,
insert the `OrderItem` row, then write the snapshot instance's
`reserved_stock + quantity` back to the product row (`product.reserved_stock
+= quantity; product.save(...)` mutates the instance fetched in the pricing
loop, so the written value is relative to that snapshot, not to the row's
current value). -/
def create_items_loop (oid : Nat) :
    List OrderItemData → List OrderItem × List Product → List OrderItem × List Product
  | [], s => s
  | d :: ds, (ois, ps) =>
      create_items_loop oid ds
        (ois ++ [mk_order_item oid d],
         updateProductRow ps d.product.id
           (fun p => { p with reserved_stock := d.product.reserved_stock + d.quantity }))

/-- `OrderCreateSerializer.create`: pricing loop, delivery totals, `Order`
row insertion (through `Order.save`, which generates the order number and is
subject to the unique constraint), then the item-creation/reservation loop.
There is no `transaction.atomic` wrapper in the source; the returned `DB` is
the store as left at the point the operation finished or failed. -/
def order_create (db : DB) (inp : CheckoutInput) (now : Nat) : DB × Except CheckoutError Order :=
  match build_order_items_data db inp.items with
  | Except.error e => (db, Except.error e)
  | Except.ok (itemsData, subtotal) =>
      let totals := calculate_order_total_with_delivery subtotal inp.delivery_city inp.delivery_type
      let newOrder : Order :=
        { id := db.next_order_id
          user := inp.user
          guest_email := inp.guest_email
          guest_phone := inp.recipient_phone
          order_number := ""
          delivery_address := inp.delivery_address
          delivery_city := inp.delivery_city
          delivery_postal_code := inp.delivery_postal_code
          recipient_name := inp.recipient_name
          recipient_phone := inp.recipient_phone
          subtotal := subtotal
          delivery_cost := totals.delivery_cost
          total_amount := totals.total
          order_status := "pending"
          payment_status := "unpaid"
          customer_notes := inp.customer_notes
          paid_at := none }
      match order_save { db with next_order_id := db.next_order_id + 1 } newOrder now with
      | Except.error _ => (db, Except.error CheckoutError.integrityError)
      | Except.ok (db1, o) =>
          let s := create_items_loop o.id itemsData (db1.order_items, db1.products)
          ({ db1 with order_items := s.1, products := s.2 }, Except.ok o)

/-- The checkout operation as exposed by `CheckoutView.create`:
`serializer.is_valid(raise_exception=True)` then `serializer.save()`. -/
def checkout (db : DB) (inp : CheckoutInput) (now : Nat) : DB × Except CheckoutError Order :=
  match validate_checkout db inp with
  | Except.error e => (db, Except.error e)
  | Except.ok _ => order_create db inp now

/-- Receipt extraction of `process_mpesa_callback`: scan
`CallbackMetadata.Item`, keeping the `Value` (default `''`) of the last item
named `MpesaReceiptNumber`.  (The task also extracts an `Amount` into a
local variable it never uses afterwards; that dead assignment is dropped.) -/
def extract_mpesa_receipt (items : List StkCallbackItem) : String :=
  items.foldl (fun acc it => if it.name == "MpesaReceiptNumber" then it.value.getD "" else acc) ""

/-- `str(result_code)` on the optional result code (absent key gives
Python's `None`). -/
def str_of_result_code : Option ℤ → String
  | some n => toString n
  | none => "None"

/-- `payments.tasks.process_mpesa_callback`: look up the transaction by
`checkout_request_id` (unknown or absent correlation id: log and return with
no writes), then branch on the result code: `0` marks the transaction
`payment_success` with the extracted receipt and flips the order to
`(confirmed, paid)` stamping `paid_at`; `1` marks `user_cancel` and sets the
order back to `unpaid`; any other code marks `payment_failed` and sets the
order's `payment_status` to `failed`.  No branch touches product rows. -/
def process_mpesa_callback (db : DB) (cb : StkCallback) (now : Nat) : DB :=
  match db.transactions.find? (fun t => cb.checkoutRequestID == some t.checkout_request_id) with
  | none => db
  | some t =>
      match db.orders.find? (fun o => o.id == t.order) with
      | none => db
      | some o =>
          if cb.resultCode = some 0 then
            let receipt := extract_mpesa_receipt cb.items
            let o' := { o with payment_status := "paid", order_status := "confirmed",
                               paid_at := some now }
            let t' := { t with transaction_type := "payment_success"
                               mpesa_receipt := receipt
                               response_code := "0"
                               response_description := "Payment successful"
                               raw_response := some cb }
            { db with orders := updateOrderRow db.orders o.id o'
                      transactions := updateTransactionRow db.transactions t.id t' }
          else if cb.resultCode = some 1 then
            let t' := { t with transaction_type := "user_cancel", raw_response := some cb }
            let o' := { o with payment_status := "unpaid" }
            { db with orders := updateOrderRow db.orders o.id o'
                      transactions := updateTransactionRow db.transactions t.id t' }
          else
            let t' := { t with transaction_type := "payment_failed"
                               response_code := str_of_result_code cb.resultCode
                               response_description := cb.resultDesc
                               raw_response := some cb }
            let o' := { o with payment_status := "failed" }
            { db with orders := updateOrderRow db.orders o.id o'
                      transactions := updateTransactionRow db.transactions t.id t' }

/-- Python `int()` on a Decimal/rational: truncation toward zero. -/
def python_int (q : ℚ) : ℤ :=
  if 0 ≤ q then ⌊q⌋ else ⌈q⌉

/-- The fields of the `DarajaAPI.initiate_stk_push` request payload that are
derived from its arguments (`Amount` is `int(amount)`). -/
structure StkPushPayload where
  amount : ℤ
  party_a : String
  phone_number : String
  account_reference : String
  deriving Repr, DecidableEq

/-- `DarajaAPI.initiate_stk_push` payload construction. -/
def initiate_stk_push_payload (phone_number : String) (amount : ℚ) (order_number : String) :
    StkPushPayload :=
  { amount := python_int amount
    party_a := phone_number
    phone_number := phone_number
    account_reference := order_number }

/-- The payload `STKPushInitiateView.create` sends for an order: it passes
`amount=order.total_amount` to `initiate_stk_push`. -/
def stk_push_payload_for (o : Order) (phone : String) : StkPushPayload :=
  initiate_stk_push_payload phone o.total_amount o.order_number

/-- Gateway response summary consumed by `STKPushInitiateView.create`. -/
structure StkPushResult where
  success : Bool
  merchant_request_id : String
  checkout_request_id : String
  response_code : String
  response_message : String
  deriving Repr, DecidableEq

/-- The state change performed by `STKPushInitiateView.create` after the
gateway call: both on success and on failure it only appends one
`stk_initiate` row to the transaction log (`amount` is the order's exact
`total_amount`; the correlation ids are recorded only on success). -/
def stk_initiate_log (db : DB) (o : Order) (phone : String) (res : StkPushResult) : DB :=
  let t : TransactionLog :=
    { id := db.next_transaction_id
      order := o.id
      transaction_type := "stk_initiate"
      merchant_request_id := if res.success then res.merchant_request_id else ""
      checkout_request_id := if res.success then res.checkout_request_id else ""
      phone_number := phone
      amount := o.total_amount
      response_code := res.response_code
      response_description := res.response_message
      mpesa_receipt := ""
      raw_response := none }
  { db with transactions := db.transactions ++ [t]
            next_transaction_id := db.next_transaction_id + 1 }

/-- `products.tasks.check_low_stock`: a read-only scan that counts active
products at or below the threshold (its notification is a TODO/print); it
performs no writes. -/
def check_low_stock (db : DB) : DB × Nat :=
  (db, (db.products.filter (fun p => decide (p.stock ≤ LOW_STOCK_THRESHOLD) && p.is_active)).length)

/-- `app.conf.beat_schedule` from `autoparts_kenya/celery.py`: the complete
list of periodic tasks, as (schedule-entry name, task path) pairs. -/
def beat_schedule : List (String × String) :=
  [("check-low-stock-every-hour", "products.tasks.check_low_stock")]

/-- Dispatch one periodic task by its task path. -/
def run_beat_task (taskName : String) (db : DB) : DB :=
  if taskName = "products.tasks.check_low_stock" then (check_low_stock db).1 else db

/-- Run any sequence of periodic-task firings. -/
def run_beat (names : List String) (db : DB) : DB :=
  names.foldl (fun d n => run_beat_task n d) db

/-- The per-product stock invariant of the spec. -/
def stockInvariant (p : Product) : Prop :=
  0 ≤ p.reserved_stock ∧ p.reserved_stock ≤ p.stock

instance (p : Product) : Decidable (stockInvariant p) := by
  unfold stockInvariant
  infer_instance

/-! ### Concrete fixtures used by witnesses and counterexamples -/

/-- An active product with 5 units in stock, none reserved. -/
def sample_product : Product :=
  { id := 1, name := "Brake Pad", sku := "BP-1", is_active := true,
    price := 100, discount_percentage := 0, stock := 5, reserved_stock := 0 }

/-- A store holding just `sample_product`. -/
def sample_db : DB :=
  { products := [sample_product], orders := [], order_items := [], transactions := [],
    next_order_id := 1, next_transaction_id := 1 }

/-- A guest checkout request for a single unit of product 1. -/
def sample_input : CheckoutInput :=
  { items := [⟨1, 1⟩],
    delivery_address := "123 Kenyatta Avenue", delivery_city := "Nairobi",
    delivery_postal_code := "", recipient_name := "Jane", recipient_phone := "0712345678",
    guest_email := "jane.g@example.com", customer_notes := "", delivery_type := "standard",
    user := none }

/-- The same request with an empty cart. -/
def sample_empty_input : CheckoutInput :=
  { sample_input with items := [] }

/-- A cart listing the same product on two lines, 5 units each —
each line individually passes the stock validation against the same
pre-checkout state. -/
def sample_dup_input : CheckoutInput :=
  { sample_input with items := [⟨1, 5⟩, ⟨1, 5⟩] }

/-- A product with 2 of its 5 units reserved by a pending order. -/
def reserved_product : Product :=
  { sample_product with reserved_stock := 2 }

/-- An order awaiting payment for 2 units of product 1. -/
def pending_order : Order :=
  { id := 9, user := none, guest_email := "g@example.com", guest_phone := "0712345678",
    order_number := "ORD-20250101", delivery_address := "addr", delivery_city := "Nairobi",
    delivery_postal_code := "", recipient_name := "Jane", recipient_phone := "0712345678",
    subtotal := 200, delivery_cost := 200, total_amount := 400,
    order_status := "pending", payment_status := "unpaid", customer_notes := "",
    paid_at := none }

/-- The line item of `pending_order`: 2 units of product 1. -/
def pending_item : OrderItem :=
  { order := 9, product := some 1, product_name := "Brake Pad", product_sku := "BP-1",
    unit_price := 100, quantity := 2, line_total := 200 }

/-- The `stk_initiate` transaction row of `pending_order`'s push attempt. -/
def initiated_tx : TransactionLog :=
  { id := 3, order := 9, transaction_type := "stk_initiate", merchant_request_id := "m-1",
    checkout_request_id := "ws_CO_1", phone_number := "254712345678", amount := 400,
    response_code := "0", response_description := "Success. Request accepted",
    mpesa_receipt := "", raw_response := none }

/-- A store with a pending order, its item, its reservation and its
in-flight `stk_initiate` transaction. -/
def payment_db : DB :=
  { products := [reserved_product], orders := [pending_order], order_items := [pending_item],
    transactions := [initiated_tx], next_order_id := 10, next_transaction_id := 4 }

/-- A successful callback for `ws_CO_1` carrying a receipt. -/
def cb_success : StkCallback :=
  { checkoutRequestID := some "ws_CO_1", resultCode := some 0,
    resultDesc := "The service request is processed successfully.",
    items := [⟨"MpesaReceiptNumber", some "SAH8XQ11TC"⟩, ⟨"Amount", none⟩] }

/-- A user-cancellation callback for `ws_CO_1` (`ResultCode = 1`). -/
def cb_cancel : StkCallback :=
  { checkoutRequestID := some "ws_CO_1", resultCode := some 1,
    resultDesc := "Request cancelled by user", items := [] }

/-- A failure callback for `ws_CO_1` (`ResultCode = 1032`, neither success
nor user cancellation). -/
def cb_failed : StkCallback :=
  { checkoutRequestID := some "ws_CO_1", resultCode := some 1032,
    resultDesc := "Request timed out", items := [] }

/-- An order whose total has a non-zero fractional part (284.50: e.g. a
discounted odd price plus the flat delivery rate).  The rationals are given
in normal form so that concrete evaluation reduces definitionally. -/
def fractional_order : Order :=
  { pending_order with
    subtotal := ⟨169, 2, by decide, by decide⟩
    delivery_cost := 200
    total_amount := ⟨569, 2, by decide, by decide⟩ }

/-! ### General lemmas about row lookup and row update -/

/-- `find?` commutes with a row rewrite that does not change the predicate's
verdict on any row. -/
theorem find?_map_pred_inv {α : Type} (l : List α) (g : α → α) (p : α → Bool)
    (h : ∀ a, p (g a) = p a) : (l.map g).find? p = (l.find? p).map g := by
  induction l with
  | nil => rfl
  | cons a t ih =>
      cases hp : p a
      · have hg : p (g a) = false := by rw [h a, hp]
        rw [List.map_cons, List.find?_cons_of_neg _ (by simp [hg]),
          List.find?_cons_of_neg _ (by simp [hp]), ih]
      · have hg : p (g a) = true := by rw [h a, hp]
        rw [List.map_cons, List.find?_cons_of_pos _ hg, List.find?_cons_of_pos _ hp,
          Option.map_some']

/-- After rewriting every row that shares the found row's key to a new value
still matched by the predicate, `find?` returns the new value. -/
theorem find?_update_row {α : Type} (l : List α) (p : α → Bool) (idf : α → Nat) (t t' : α)
    (hfind : l.find? p = some t) (ht' : p t' = true) :
    (l.map (fun x => if idf x == idf t then t' else x)).find? p = some t' := by
  induction l with
  | nil => simp at hfind
  | cons a rest ih =>
      cases hp : p a
      · have hrest : rest.find? p = some t := by
          rwa [List.find?_cons_of_neg _ (by simp [hp])] at hfind
        by_cases hid : (idf a == idf t) = true
        · rw [List.map_cons, if_pos hid, List.find?_cons_of_pos _ ht']
        · rw [List.map_cons, if_neg hid, List.find?_cons_of_neg _ (by simp [hp])]
          exact ih hrest
      · have ha : a = t := by
          rw [List.find?_cons_of_pos _ hp] at hfind
          exact Option.some.inj hfind
        subst ha
        rw [List.map_cons, if_pos (by simp), List.find?_cons_of_pos _ ht']

/-- Rewriting every row with key `i` to the same value `v` twice is the same
as doing it once. -/
theorem update_row_idem {α : Type} (l : List α) (idf : α → Nat) (i : Nat) (v : α)
    (hv : idf v = i) :
    (l.map (fun x => if idf x == i then v else x)).map (fun x => if idf x == i then v else x)
      = l.map (fun x => if idf x == i then v else x) := by
  rw [List.map_map]
  refine List.map_congr_left ?_
  intro a _
  by_cases h : (idf a == i) = true
  · simp only [Function.comp_apply, h, if_true, hv, beq_self_eq_true, if_pos]
  · simp only [Function.comp_apply, h, if_false, Bool.false_eq_true]

/-- Rewriting rows whose key equals `i` to `v` preserves any field on which
`v` agrees with every rewritten row. -/
theorem map_update_row_eq {α β : Type} (l : List α) (idf : α → Nat) (fld : α → β)
    (i : Nat) (v : α) (h : ∀ a ∈ l, (idf a == i) = true → fld v = fld a) :
    (l.map (fun x => if idf x == i then v else x)).map fld = l.map fld := by
  rw [List.map_map]
  refine List.map_congr_left ?_
  intro a ha
  by_cases hid : (idf a == i) = true
  · simp only [Function.comp_apply, hid, if_true, h a ha hid]
  · simp only [Function.comp_apply, hid, if_false, Bool.false_eq_true]

/-- The products-table effect of the item-creation loop, in isolation: the
sequence of reservation writes, each computed from the pricing-loop snapshot
held in its `OrderItemData`. -/
def reserve_products (ds : List OrderItemData) (ps : List Product) : List Product :=
  ds.foldl
    (fun acc d => updateProductRow acc d.product.id
      (fun p => { p with reserved_stock := d.product.reserved_stock + d.quantity }))
    ps

/-- The item rows produced by the item-creation loop are appended in cart
order. -/
theorem create_items_loop_fst (oid : Nat) (ds : List OrderItemData)
    (ois : List OrderItem) (ps : List Product) :
    (create_items_loop oid ds (ois, ps)).1 = ois ++ ds.map (mk_order_item oid) := by
  induction ds generalizing ois ps with
  | nil => simp [create_items_loop]
  | cons d rest ih =>
      rw [create_items_loop, ih]
      simp

/-- The products-table effect of the item-creation loop is
`reserve_products`. -/
theorem create_items_loop_snd (oid : Nat) (ds : List OrderItemData)
    (ois : List OrderItem) (ps : List Product) :
    (create_items_loop oid ds (ois, ps)).2 = reserve_products ds ps := by
  induction ds generalizing ois ps with
  | nil => rfl
  | cons d rest ih =>
      rw [create_items_loop, ih]
      rfl

/-- A cart line that passes `validate_cart_item` has quantity at least 1 and
at most the available stock of the product row found by id. -/
theorem validate_cart_item_ok (db : DB) (it : CartItem)
    (h : validate_cart_item db it = Except.ok ()) :
    1 ≤ it.quantity ∧
    ∃ p, db.products.find? (fun x => x.id == it.product_id) = some p ∧
      it.quantity ≤ p.available_stock := by
  unfold validate_cart_item at h
  by_cases hq : it.quantity < 1 ∨ 100 < it.quantity
  · rw [if_pos hq] at h
    cases h
  · rw [if_neg hq] at h
    push_neg at hq
    refine ⟨hq.1, ?_⟩
    by_cases hact : (db.products.find? (fun p => p.id == it.product_id && p.is_active)).isNone
    · rw [if_pos hact] at h
      cases h
    · rw [if_neg hact] at h
      cases hfind : db.products.find? (fun x => x.id == it.product_id) with
      | none => simp only [hfind] at h; cases h
      | some p =>
          simp only [hfind] at h
          refine ⟨p, rfl, ?_⟩
          by_cases hav : p.available_stock < it.quantity
          · rw [if_pos hav] at h
            cases h
          · exact le_of_not_lt hav

/-- If the whole item list validates, every line validates. -/
theorem validate_items_ok (db : DB) :
    ∀ (items : List CartItem), validate_items db items = Except.ok () →
      ∀ it ∈ items, validate_cart_item db it = Except.ok () := by
  intro items
  induction items with
  | nil => intro _ it hit; cases hit
  | cons a rest ih =>
      intro h it hit
      unfold validate_items at h
      cases hv : validate_cart_item db a with
      | error e => simp only [hv] at h; cases h
      | ok u =>
          simp only [hv] at h
          rcases List.mem_cons.mp hit with rfl | hit'
          · cases u; exact hv
          · exact ih h it hit'

/-- Per-line relation established by the pricing loop. -/
def PricedEntry (db : DB) (it : CartItem) (d : OrderItemData) : Prop :=
  db.products.find? (fun x => x.id == it.product_id) = some d.product ∧
  d.quantity = it.quantity ∧
  d.unit_price = d.product.discounted_price

/-- The pricing loop produces one `OrderItemData` per cart line, related by
`PricedEntry`, and the accumulated subtotal is the sum of the line totals. -/
theorem build_order_items_data_ok (db : DB) :
    ∀ (items : List CartItem) (ds : List OrderItemData) (sub : ℚ),
      build_order_items_data db items = Except.ok (ds, sub) →
      List.Forall₂ (PricedEntry db) items ds ∧
      sub = (ds.map (fun d => d.unit_price * (d.quantity : ℚ))).sum := by
  intro items
  induction items with
  | nil =>
      intro ds sub h
      unfold build_order_items_data at h
      cases h
      exact ⟨List.Forall₂.nil, rfl⟩
  | cons a rest ih =>
      intro ds sub h
      unfold build_order_items_data at h
      cases hfind : db.products.find? (fun p => p.id == a.product_id) with
      | none => simp only [hfind] at h; cases h
      | some p =>
          simp only [hfind] at h
          cases hrest : build_order_items_data db rest with
          | error e => simp only [hrest] at h; cases h
          | ok pr =>
              obtain ⟨ds', sub'⟩ := pr
              simp only [hrest] at h
              cases h
              obtain ⟨hall, hsum⟩ := ih ds' sub' hrest
              refine ⟨List.Forall₂.cons ⟨hfind, rfl, rfl⟩ hall, ?_⟩
              simp [hsum]

/-- Left-to-right projection of a `Forall₂`: every left element has a
related right element. -/
theorem forall₂_mem_left {α β : Type} {R : α → β → Prop} :
    ∀ {l₁ : List α} {l₂ : List β}, List.Forall₂ R l₁ l₂ →
      ∀ a ∈ l₁, ∃ b ∈ l₂, R a b := by
  intro l₁ l₂ h
  induction h with
  | nil => intro a ha; cases ha
  | cons hR _ ih =>
      intro a ha
      rcases List.mem_cons.mp ha with rfl | ha'
      · exact ⟨_, List.mem_cons_self _ _, hR⟩
      · obtain ⟨b, hb, hRb⟩ := ih a ha'
        exact ⟨b, List.mem_cons_of_mem _ hb, hRb⟩

/-- Right-to-left projection of a `Forall₂`. -/
theorem forall₂_mem_right {α β : Type} {R : α → β → Prop} :
    ∀ {l₁ : List α} {l₂ : List β}, List.Forall₂ R l₁ l₂ →
      ∀ b ∈ l₂, ∃ a ∈ l₁, R a b := by
  intro l₁ l₂ h
  induction h with
  | nil => intro b hb; cases hb
  | cons hR _ ih =>
      intro b hb
      rcases List.mem_cons.mp hb with rfl | hb'
      · exact ⟨_, List.mem_cons_self _ _, hR⟩
      · obtain ⟨a, ha, hRa⟩ := ih b hb'
        exact ⟨a, List.mem_cons_of_mem _ ha, hRa⟩

/-- Two maps agree across a `Forall₂` whose relation makes them pointwise
equal. -/
theorem forall₂_map_eq {α β γ : Type} {R : α → β → Prop} (f : α → γ) (g : β → γ)
    (hfg : ∀ a b, R a b → f a = g b) :
    ∀ {l₁ : List α} {l₂ : List β}, List.Forall₂ R l₁ l₂ → l₁.map f = l₂.map g := by
  intro l₁ l₂ h
  induction h with
  | nil => rfl
  | cons hR _ ih => simp [hfg _ _ hR, ih]

/-- A `PricedEntry` links the product snapshot's id to the cart line's
product id. -/
theorem pricedEntry_product_id (db : DB) (it : CartItem) (d : OrderItemData)
    (h : PricedEntry db it d) : d.product.id = it.product_id := by
  have hp := List.find?_some h.1
  simpa using hp

/-- A reservation write keyed on a different product id does not change an
id-keyed product lookup. -/
theorem updateProductRow_find?_other (ps : List Product) (pid' pid : Nat)
    (f : Product → Product) (hf : ∀ p, (f p).id = p.id) (hne : pid' ≠ pid) :
    (updateProductRow ps pid' f).find? (fun p => p.id == pid)
      = ps.find? (fun p => p.id == pid) := by
  unfold updateProductRow
  rw [find?_map_pred_inv]
  · cases hq : ps.find? (fun p => p.id == pid) with
    | none => rfl
    | some q =>
        have hq' := List.find?_some hq
        have hqid : q.id = pid := by simpa using hq'
        rw [Option.map_some']
        have hb : (q.id == pid') = false := by
          rw [hqid]
          exact beq_eq_false_iff_ne.mpr (Ne.symm hne)
        simp [hb]
  · intro a
    by_cases hcond : (a.id == pid') = true
    · simp [hcond, hf]
    · simp [hcond]

/-- A reservation write keyed on the looked-up product id rewrites the found
row. -/
theorem updateProductRow_find?_self (ps : List Product) (pid : Nat) (f : Product → Product)
    (hf : ∀ p, (f p).id = p.id) :
    (updateProductRow ps pid f).find? (fun p => p.id == pid)
      = (ps.find? (fun p => p.id == pid)).map f := by
  unfold updateProductRow
  rw [find?_map_pred_inv]
  · cases hq : ps.find? (fun p => p.id == pid) with
    | none => rfl
    | some q =>
        have hq' := List.find?_some hq
        rw [Option.map_some', Option.map_some']
        simp only [hq', if_true]
  · intro a
    by_cases hcond : (a.id == pid) = true
    · simp [hcond, hf]
    · simp [hcond]

/-- The reservation loop leaves lookups of products outside the cart
unchanged. -/
theorem reserve_products_find?_other (ds : List OrderItemData) :
    ∀ (ps : List Product) (pid : Nat), (∀ d ∈ ds, d.product.id ≠ pid) →
      (reserve_products ds ps).find? (fun p => p.id == pid)
        = ps.find? (fun p => p.id == pid) := by
  induction ds with
  | nil => intro ps pid _; rfl
  | cons d rest ih =>
      intro ps pid h
      have hstep : reserve_products (d :: rest) ps
          = reserve_products rest (updateProductRow ps d.product.id
              (fun p => { p with
                reserved_stock := d.product.reserved_stock + d.quantity })) := rfl
      rw [hstep, ih _ pid (fun d' hd' => h d' (List.mem_cons_of_mem d hd'))]
      exact updateProductRow_find?_other ps d.product.id pid _ (fun p => rfl)
        (h d (List.mem_cons_self d rest))

/-- When the cart's product ids are pairwise distinct, the reservation loop
rewrites the looked-up row of each cart product exactly once, with the value
computed from that entry's snapshot. -/
theorem reserve_products_find?_hit (ds : List OrderItemData) :
    ∀ (ps : List Product) (d₀ : OrderItemData), d₀ ∈ ds →
      ((ds.map (fun d => d.product.id)).Nodup) →
      (reserve_products ds ps).find? (fun p => p.id == d₀.product.id)
        = (ps.find? (fun p => p.id == d₀.product.id)).map
            (fun q => { q with
              reserved_stock := d₀.product.reserved_stock + d₀.quantity }) := by
  induction ds with
  | nil => intro ps d₀ h₀ _; cases h₀
  | cons d rest ih =>
      intro ps d₀ h₀ hnd
      have hstep : reserve_products (d :: rest) ps
          = reserve_products rest (updateProductRow ps d.product.id
              (fun p => { p with
                reserved_stock := d.product.reserved_stock + d.quantity })) := rfl
      rw [hstep]
      have hnotin : d.product.id ∉ rest.map (fun d => d.product.id) :=
        (List.nodup_cons.mp hnd).1
      rcases List.mem_cons.mp h₀ with rfl | h₀'
      · have hrest : ∀ d' ∈ rest, d'.product.id ≠ d₀.product.id := by
          intro d' hd' heq
          exact hnotin (heq ▸ List.mem_map_of_mem _ hd')
        rw [reserve_products_find?_other rest _ d₀.product.id hrest]
        exact updateProductRow_find?_self ps d₀.product.id _ (fun p => rfl)
      · have hne : d.product.id ≠ d₀.product.id := by
          intro heq
          exact hnotin (heq ▸ List.mem_map_of_mem _ h₀')
        rw [ih _ d₀ h₀' (List.nodup_cons.mp hnd).2,
          updateProductRow_find?_other ps d.product.id d₀.product.id
            (fun p => { p with reserved_stock := d.product.reserved_stock + d.quantity })
            (fun p => rfl) hne]

/-- The reservation loop preserves the stock invariant provided every write
is within the bounds certified by validation against the pre-checkout state
(product ids must be unique, as primary keys are). -/
theorem reserve_products_invariant (db : DB) (ds : List OrderItemData) :
    ∀ (ps : List Product),
      ((db.products.map Product.id).Nodup) →
      (∀ d ∈ ds, d.product ∈ db.products ∧
        0 ≤ d.product.reserved_stock + d.quantity ∧
        d.product.reserved_stock + d.quantity ≤ d.product.stock) →
      (∀ q ∈ ps, stockInvariant q ∧ ∃ r ∈ db.products, r.id = q.id ∧ r.stock = q.stock) →
      ∀ q ∈ reserve_products ds ps, stockInvariant q := by
  induction ds with
  | nil => intro ps _ _ hps q hq; exact (hps q hq).1
  | cons d rest ih =>
      intro ps hids hds hps
      have hstep : reserve_products (d :: rest) ps
          = reserve_products rest (updateProductRow ps d.product.id
              (fun p => { p with
                reserved_stock := d.product.reserved_stock + d.quantity })) := rfl
      rw [hstep]
      apply ih _ hids (fun d' hd' => hds d' (List.mem_cons_of_mem d hd'))
      intro q hq
      simp only [updateProductRow] at hq
      obtain ⟨x, hx, rfl⟩ := List.mem_map.mp hq
      obtain ⟨hdp_mem, hv0, hvle⟩ := hds d (List.mem_cons_self d rest)
      obtain ⟨hxinv, r, hr_mem, hrid, hrstock⟩ := hps x hx
      by_cases hcond : (x.id == d.product.id) = true
      · rw [if_pos hcond]
        have hxid : x.id = d.product.id := by simpa using hcond
        have hr : r = d.product :=
          List.inj_on_of_nodup_map hids hr_mem hdp_mem (by rw [hrid, hxid])
        have hxstock : x.stock = d.product.stock := by rw [← hrstock, hr]
        refine ⟨⟨hv0, ?_⟩, r, hr_mem, hrid, hrstock⟩
        show d.product.reserved_stock + d.quantity ≤ x.stock
        rw [hxstock]
        exact hvle
      · rw [if_neg hcond]
        exact ⟨hxinv, r, hr_mem, hrid, hrstock⟩

/-- The `Order` row inserted by a successful checkout. -/
def checkout_new_order (db : DB) (inp : CheckoutInput) (now : Nat) (sub : ℚ) : Order :=
  { id := db.next_order_id
    user := inp.user
    guest_email := inp.guest_email
    guest_phone := inp.recipient_phone
    order_number := gen_order_number now
    delivery_address := inp.delivery_address
    delivery_city := inp.delivery_city
    delivery_postal_code := inp.delivery_postal_code
    recipient_name := inp.recipient_name
    recipient_phone := inp.recipient_phone
    subtotal := sub
    delivery_cost := DELIVERY_BASE_RATE
    total_amount := sub + DELIVERY_BASE_RATE
    order_status := "pending"
    payment_status := "unpaid"
    customer_notes := inp.customer_notes
    paid_at := none }

/-- Complete case analysis of `checkout`: it either fails returning the
store untouched, or succeeds inserting exactly the new order, its items, and
the reservation writes of the item loop. -/
theorem checkout_shape (db : DB) (inp : CheckoutInput) (now : Nat)
    (hoid : ∀ x ∈ db.orders, x.id ≠ db.next_order_id) :
    (∃ e, checkout db inp now = (db, Except.error e)) ∨
    (∃ ds sub,
      validate_items db inp.items = Except.ok () ∧
      build_order_items_data db inp.items = Except.ok (ds, sub) ∧
      checkout db inp now
        = ({ db with
             orders := db.orders ++ [checkout_new_order db inp now sub]
             order_items := db.order_items ++ ds.map (mk_order_item db.next_order_id)
             products := reserve_products ds db.products
             next_order_id := db.next_order_id + 1 },
           Except.ok (checkout_new_order db inp now sub))) := by
  have hany1 : db.orders.any (fun x => x.id == db.next_order_id) = false := by
    rw [List.any_eq_false]
    intro x hx
    simpa using hoid x hx
  cases hv : validate_checkout db inp with
  | error e =>
      refine Or.inl ⟨e, ?_⟩
      simp only [checkout, hv]
  | ok u =>
      cases u
      have hvi : validate_items db inp.items = Except.ok () := by
        unfold validate_checkout at hv
        cases hvi' : validate_items db inp.items with
        | error e => simp only [hvi'] at hv; cases hv
        | ok u2 => cases u2; rfl
      have h1 : ¬ ∃ x ∈ db.orders, x.id = db.next_order_id := by
        rintro ⟨x, hx, hxid⟩
        exact hoid x hx hxid
      cases hb : build_order_items_data db inp.items with
      | error e =>
          refine Or.inl ⟨e, ?_⟩
          simp only [checkout, hv, order_create, hb]
      | ok pr =>
          obtain ⟨ds, sub⟩ := pr
          cases hdup : db.orders.any (fun x => x.order_number == gen_order_number now) with
          | true =>
              refine Or.inl ⟨CheckoutError.integrityError, ?_⟩
              have h2 : ∃ x ∈ db.orders, x.order_number = gen_order_number now := by
                obtain ⟨x, hx, hxn⟩ := List.any_eq_true.mp hdup
                exact ⟨x, hx, by simpa using hxn⟩
              simp only [checkout, hv]
              simp [order_create, hb, order_save, calculate_order_total_with_delivery, h1, h2]
          | false =>
              refine Or.inr ⟨ds, sub, hvi, rfl, ?_⟩
              have h2 : ¬ ∃ x ∈ db.orders, x.order_number = gen_order_number now := by
                rintro ⟨x, hx, hxn⟩
                exact (List.any_eq_false.mp hdup x hx) (by simpa using hxn)
              simp only [checkout, hv]
              simp [order_create, hb, order_save, calculate_order_total_with_delivery, h1, h2,
                create_items_loop_fst, create_items_loop_snd, checkout_new_order]

/-! ### Branch shapes of the callback reconciler -/

/-- Shape of `process_mpesa_callback` on a matched success callback. -/
theorem process_success_eq (db : DB) (cb : StkCallback) (now : Nat)
    (t : TransactionLog) (o : Order)
    (ht : db.transactions.find? (fun x => cb.checkoutRequestID == some x.checkout_request_id)
        = some t)
    (ho : db.orders.find? (fun x => x.id == t.order) = some o)
    (hrc : cb.resultCode = some 0) :
    process_mpesa_callback db cb now
      = { db with
          orders := updateOrderRow db.orders o.id
            { o with payment_status := "paid", order_status := "confirmed",
                     paid_at := some now }
          transactions := updateTransactionRow db.transactions t.id
            { t with transaction_type := "payment_success"
                     mpesa_receipt := extract_mpesa_receipt cb.items
                     response_code := "0"
                     response_description := "Payment successful"
                     raw_response := some cb } } := by
  simp only [process_mpesa_callback, ht, ho, hrc, if_pos]

/-- Shape of `process_mpesa_callback` on a matched user-cancel callback. -/
theorem process_cancel_eq (db : DB) (cb : StkCallback) (now : Nat)
    (t : TransactionLog) (o : Order)
    (ht : db.transactions.find? (fun x => cb.checkoutRequestID == some x.checkout_request_id)
        = some t)
    (ho : db.orders.find? (fun x => x.id == t.order) = some o)
    (hrc : cb.resultCode = some 1) :
    process_mpesa_callback db cb now
      = { db with
          orders := updateOrderRow db.orders o.id { o with payment_status := "unpaid" }
          transactions := updateTransactionRow db.transactions t.id
            { t with transaction_type := "user_cancel", raw_response := some cb } } := by
  simp only [process_mpesa_callback, ht, ho, hrc, if_pos]
  norm_num

/-- Shape of `process_mpesa_callback` on a matched callback whose result
code is neither success nor user cancellation. -/
theorem process_failed_eq (db : DB) (cb : StkCallback) (now : Nat)
    (t : TransactionLog) (o : Order)
    (ht : db.transactions.find? (fun x => cb.checkoutRequestID == some x.checkout_request_id)
        = some t)
    (ho : db.orders.find? (fun x => x.id == t.order) = some o)
    (hrc0 : cb.resultCode ≠ some 0) (hrc1 : cb.resultCode ≠ some 1) :
    process_mpesa_callback db cb now
      = { db with
          orders := updateOrderRow db.orders o.id { o with payment_status := "failed" }
          transactions := updateTransactionRow db.transactions t.id
            { t with transaction_type := "payment_failed"
                     response_code := str_of_result_code cb.resultCode
                     response_description := cb.resultDesc
                     raw_response := some cb } } := by
  simp only [process_mpesa_callback, ht, ho, if_neg hrc0, if_neg hrc1]

/-! ### C7 — success callback effect -/

/-- C7: a callback with `ResultCode = 0` matching a transaction marks that
transaction `payment_success` with the receipt extracted from the payload,
and flips the matched order to `payment_status = paid`,
`order_status = confirmed` with `paid_at` stamped to the processing time;
the set of order rows (by id) is unchanged. -/
theorem success_callback_effect (db : DB) (cb : StkCallback) (now : Nat)
    (t : TransactionLog) (o : Order)
    (ht : db.transactions.find? (fun x => cb.checkoutRequestID == some x.checkout_request_id)
        = some t)
    (ho : db.orders.find? (fun x => x.id == t.order) = some o)
    (hrc : cb.resultCode = some 0) :
    ((process_mpesa_callback db cb now).orders.map Order.id = db.orders.map Order.id) ∧
    (∃ x ∈ (process_mpesa_callback db cb now).orders, x.id = o.id) ∧
    (∀ x ∈ (process_mpesa_callback db cb now).orders, x.id = o.id →
        x.payment_status = "paid" ∧ x.order_status = "confirmed" ∧ x.paid_at = some now) ∧
    (∀ x ∈ (process_mpesa_callback db cb now).transactions, x.id = t.id →
        x.transaction_type = "payment_success" ∧
        x.mpesa_receipt = extract_mpesa_receipt cb.items ∧
        x.response_code = "0" ∧ x.raw_response = some cb) := by
  rw [process_success_eq db cb now t o ht ho hrc]
  simp only [updateOrderRow, updateTransactionRow]
  have hmem : o ∈ db.orders := List.mem_of_find?_eq_some ho
  refine ⟨?_, ?_, ?_, ?_⟩
  · refine map_update_row_eq db.orders Order.id Order.id o.id _ ?_
    intro a _ hid
    simp only [beq_iff_eq] at hid
    simp [hid]
  · exact ⟨_, List.mem_map_of_mem _ hmem, by simp⟩
  · intro x hx hxid
    obtain ⟨a, -, rfl⟩ := List.mem_map.mp hx
    by_cases hid : (a.id == o.id) = true
    · rw [if_pos hid]
      exact ⟨rfl, rfl, rfl⟩
    · rw [if_neg hid] at hxid
      exact absurd (by simp [hxid]) hid
  · intro x hx hxid
    obtain ⟨a, -, rfl⟩ := List.mem_map.mp hx
    by_cases hid : (a.id == t.id) = true
    · rw [if_pos hid]
      exact ⟨rfl, rfl, rfl, rfl⟩
    · rw [if_neg hid] at hxid
      exact absurd (by simp [hxid]) hid

/-- Witness: C7 at the concrete pending order and success callback. -/
theorem success_callback_effect_witness :
    (((process_mpesa_callback payment_db cb_success 100).orders.map Order.id
        = payment_db.orders.map Order.id) ∧
      (∃ x ∈ (process_mpesa_callback payment_db cb_success 100).orders,
        x.id = pending_order.id) ∧
      (∀ x ∈ (process_mpesa_callback payment_db cb_success 100).orders,
        x.id = pending_order.id →
          x.payment_status = "paid" ∧ x.order_status = "confirmed" ∧ x.paid_at = some 100) ∧
      (∀ x ∈ (process_mpesa_callback payment_db cb_success 100).transactions,
        x.id = initiated_tx.id →
          x.transaction_type = "payment_success" ∧
          x.mpesa_receipt = extract_mpesa_receipt cb_success.items ∧
          x.response_code = "0" ∧ x.raw_response = some cb_success)) :=
  success_callback_effect payment_db cb_success 100 initiated_tx pending_order
    (by decide) (by decide) rfl

/-! ### C4 — failure callback (amended) -/

/-- C4 (amended): a matched callback whose result code is neither `0` nor
`1` marks the transaction `payment_failed`, sets the matched order's
`payment_status` to `failed` — and leaves every product row, in particular
every `reserved_stock` counter, completely unchanged: the reservation is not
released. -/
theorem failed_callback_effect (db : DB) (cb : StkCallback) (now : Nat)
    (t : TransactionLog) (o : Order)
    (ht : db.transactions.find? (fun x => cb.checkoutRequestID == some x.checkout_request_id)
        = some t)
    (ho : db.orders.find? (fun x => x.id == t.order) = some o)
    (hrc0 : cb.resultCode ≠ some 0) (hrc1 : cb.resultCode ≠ some 1) :
    ((process_mpesa_callback db cb now).products = db.products) ∧
    (∃ x ∈ (process_mpesa_callback db cb now).orders, x.id = o.id) ∧
    (∀ x ∈ (process_mpesa_callback db cb now).orders, x.id = o.id →
        x.payment_status = "failed") ∧
    (∀ x ∈ (process_mpesa_callback db cb now).transactions, x.id = t.id →
        x.transaction_type = "payment_failed" ∧
        x.response_description = cb.resultDesc) := by
  rw [process_failed_eq db cb now t o ht ho hrc0 hrc1]
  simp only [updateOrderRow, updateTransactionRow]
  have hmem : o ∈ db.orders := List.mem_of_find?_eq_some ho
  refine ⟨by trivial, ?_, ?_, ?_⟩
  · exact ⟨_, List.mem_map_of_mem _ hmem, by simp⟩
  · intro x hx hxid
    obtain ⟨a, -, rfl⟩ := List.mem_map.mp hx
    by_cases hid : (a.id == o.id) = true
    · rw [if_pos hid]
    · rw [if_neg hid] at hxid
      exact absurd (by simp [hxid]) hid
  · intro x hx hxid
    obtain ⟨a, -, rfl⟩ := List.mem_map.mp hx
    by_cases hid : (a.id == t.id) = true
    · rw [if_pos hid]
      exact ⟨rfl, rfl⟩
    · rw [if_neg hid] at hxid
      exact absurd (by simp [hxid]) hid

/-- Witness: C4 (amended) at the concrete pending order and failure
callback. -/
theorem failed_callback_effect_witness :
    (((process_mpesa_callback payment_db cb_failed 100).products = payment_db.products) ∧
      (∃ x ∈ (process_mpesa_callback payment_db cb_failed 100).orders,
        x.id = pending_order.id) ∧
      (∀ x ∈ (process_mpesa_callback payment_db cb_failed 100).orders,
        x.id = pending_order.id → x.payment_status = "failed") ∧
      (∀ x ∈ (process_mpesa_callback payment_db cb_failed 100).transactions,
        x.id = initiated_tx.id →
          x.transaction_type = "payment_failed" ∧
          x.response_description = cb_failed.resultDesc)) :=
  failed_callback_effect payment_db cb_failed 100 initiated_tx pending_order
    (by decide) (by decide) (by decide) (by decide)

/-- No branch of the callback reconciler touches the products table. -/
theorem process_mpesa_callback_products (db : DB) (cb : StkCallback) (now : Nat) :
    (process_mpesa_callback db cb now).products = db.products := by
  unfold process_mpesa_callback
  repeat' split <;> try rfl

/-! ### C6 — order totals -/

/-- C6: for every order a successful checkout creates, the stored monetary
fields satisfy `total_amount = subtotal + delivery_cost`, and the subtotal
is the sum of the line totals of the order's stored items.  (Freshness of
the auto-increment id is assumed, as the database guarantees it.) -/
theorem order_total_equals_subtotal_plus_delivery
    (db : DB) (inp : CheckoutInput) (now : Nat) (o : Order)
    (hoid : ∀ x ∈ db.orders, x.id ≠ db.next_order_id)
    (hfresh : ∀ it ∈ db.order_items, it.order ≠ db.next_order_id)
    (hok : (checkout db inp now).2 = Except.ok o) :
    o.total_amount = o.subtotal + o.delivery_cost ∧
    o.subtotal = (((checkout db inp now).1.order_items.filter
        (fun it => it.order == o.id)).map OrderItem.line_total).sum := by
  rcases checkout_shape db inp now hoid with ⟨e, hchk⟩ | ⟨ds, sub, hvi, hb, hchk⟩
  · rw [hchk] at hok
    cases hok
  · rw [hchk] at hok
    have ho : checkout_new_order db inp now sub = o := Except.ok.inj hok
    rw [hchk, ← ho]
    constructor
    · rfl
    · show sub = (((db.order_items ++ ds.map (mk_order_item db.next_order_id)).filter
          (fun it => it.order == db.next_order_id)).map OrderItem.line_total).sum
      rw [List.filter_append]
      have hold : db.order_items.filter (fun it => it.order == db.next_order_id) = [] := by
        rw [List.filter_eq_nil_iff]
        intro a ha
        simpa using hfresh a ha
      have hnew : (ds.map (mk_order_item db.next_order_id)).filter
          (fun it => it.order == db.next_order_id) = ds.map (mk_order_item db.next_order_id) := by
        rw [List.filter_eq_self]
        intro a ha
        obtain ⟨d, hd, rfl⟩ := List.mem_map.mp ha
        simp [mk_order_item]
      rw [hold, hnew, List.nil_append, List.map_map]
      exact (build_order_items_data_ok db inp.items ds sub hb).2

/-- Witness fixture: the order created by the single-line sample checkout. -/
def sample_created_order : Order :=
  { id := 1, user := none, guest_email := "jane.g@example.com", guest_phone := "0712345678",
    order_number := "ORD-5", delivery_address := "123 Kenyatta Avenue",
    delivery_city := "Nairobi", delivery_postal_code := "", recipient_name := "Jane",
    recipient_phone := "0712345678", subtotal := 100, delivery_cost := 200,
    total_amount := 300, order_status := "pending", payment_status := "unpaid",
    customer_notes := "", paid_at := none }

/-- Witness: C6 at the concrete single-line checkout. -/
theorem order_total_equals_subtotal_plus_delivery_witness :
    sample_created_order.total_amount
        = sample_created_order.subtotal + sample_created_order.delivery_cost ∧
    sample_created_order.subtotal
        = (((checkout sample_db sample_input 5).1.order_items.filter
            (fun it => it.order == sample_created_order.id)).map OrderItem.line_total).sum :=
  order_total_equals_subtotal_plus_delivery sample_db sample_input 5 sample_created_order
    (by simp [sample_db]) (by simp [sample_db])
    (by
      simp [checkout, validate_checkout, validate_items, validate_cart_item, sample_db,
        sample_input, order_create, build_order_items_data, order_save,
        calculate_order_total_with_delivery, create_items_loop, mk_order_item,
        updateProductRow, updateOrderRow, gen_order_number, Product.available_stock,
        Product.discounted_price, sample_product, sample_created_order, DELIVERY_BASE_RATE]
      exact ⟨rfl, by norm_num⟩)

/-! ### C3 — stock invariant -/

/-- C3: if every product satisfies `0 ≤ reserved_stock ≤ stock` before an
operation of the core, it still does afterwards — for checkout (any cart,
including repeated lines, thanks to the snapshot-relative writes), for
callback reconciliation (which never touches product rows), and for payment
initiation (which only appends a transaction row).  Product ids are assumed
unique, as primary keys are. -/
theorem stock_invariant_preserved
    (db : DB) (inp : CheckoutInput) (cb : StkCallback) (o : Order) (phone : String)
    (res : StkPushResult) (now now2 : Nat)
    (hids : (db.products.map Product.id).Nodup)
    (hoid : ∀ x ∈ db.orders, x.id ≠ db.next_order_id)
    (hinv : ∀ p ∈ db.products, stockInvariant p) :
    (∀ p ∈ (checkout db inp now).1.products, stockInvariant p) ∧
    (∀ p ∈ (process_mpesa_callback db cb now2).products, stockInvariant p) ∧
    (∀ p ∈ (stk_initiate_log db o phone res).products, stockInvariant p) := by
  refine ⟨?_, ?_, ?_⟩
  · rcases checkout_shape db inp now hoid with ⟨e, hchk⟩ | ⟨ds, sub, hvi, hb, hchk⟩
    · rw [hchk]
      exact hinv
    · rw [hchk]
      show ∀ p ∈ reserve_products ds db.products, stockInvariant p
      apply reserve_products_invariant db ds db.products hids
      · intro d hd
        obtain ⟨hall, _⟩ := build_order_items_data_ok db inp.items ds sub hb
        obtain ⟨it, hit, hpe⟩ := forall₂_mem_right hall d hd
        obtain ⟨hfind, hq, _⟩ := hpe
        have hvitem := validate_items_ok db inp.items hvi it hit
        obtain ⟨hq1, p, hfind2, hple⟩ := validate_cart_item_ok db it hvitem
        have hpd : p = d.product := by
          rw [hfind] at hfind2
          exact (Option.some.inj hfind2).symm
        subst hpd
        have hmem : d.product ∈ db.products := List.mem_of_find?_eq_some hfind
        have hinvp := hinv d.product hmem
        rw [Product.available_stock] at hple
        rcases le_max_iff.mp hple with h0 | hdiff
        · refine ⟨hmem, ?_, ?_⟩ <;> [skip; skip] <;> rw [hq] <;> omega
        · refine ⟨hmem, ?_, ?_⟩ <;> rw [hq]
          · have := hinvp.1
            omega
          · omega
      · intro q hq
        exact ⟨hinv q hq, q, hq, rfl, rfl⟩
  · rw [process_mpesa_callback_products]
    exact hinv
  · exact hinv

/-- Witness: C3 at the concrete store — including the duplicate-line cart,
whose lost-update writes still respect the invariant. -/
theorem stock_invariant_preserved_witness :
    (∀ p ∈ (checkout sample_db sample_dup_input 20250101).1.products, stockInvariant p) ∧
    (∀ p ∈ (process_mpesa_callback sample_db cb_success 100).products, stockInvariant p) ∧
    (∀ p ∈ (stk_initiate_log sample_db pending_order "254712345678"
        ⟨true, "m-1", "ws_CO_9", "0", "Success"⟩).products, stockInvariant p) :=
  stock_invariant_preserved sample_db sample_dup_input cb_success pending_order
    "254712345678" ⟨true, "m-1", "ws_CO_9", "0", "Success"⟩ 20250101 100
    (by decide) (by simp [sample_db]) (by decide)

/-! ### C2 — checkout atomicity (amended) -/

/-- C2 (amended): checkout is all-or-nothing in the sequential model — on
any failure the store is returned untouched (no order row, no item rows, no
stock counters changed), and on success the order row and every item row are
inserted; the per-item reservation increments, however, are only guaranteed
when the cart's product ids are pairwise distinct, because each write is
computed from the pre-checkout snapshot (see the lost-update
counterexample). -/
theorem checkout_atomic_distinct_products (db : DB) (inp : CheckoutInput) (now : Nat)
    (hoid : ∀ x ∈ db.orders, x.id ≠ db.next_order_id) :
    ((checkout db inp now).2.isOk = false → (checkout db inp now).1 = db) ∧
    (∀ o : Order, (checkout db inp now).2 = Except.ok o →
      (checkout db inp now).1.orders = db.orders ++ [o] ∧
      (∃ ds sub, build_order_items_data db inp.items = Except.ok (ds, sub) ∧
        (checkout db inp now).1.order_items
          = db.order_items ++ ds.map (mk_order_item o.id)) ∧
      ((inp.items.map CartItem.product_id).Nodup →
        ∀ it ∈ inp.items,
          ((checkout db inp now).1.products.find? (fun p => p.id == it.product_id)).map
              Product.reserved_stock
            = (db.products.find? (fun p => p.id == it.product_id)).map
                (fun p => p.reserved_stock + it.quantity))) := by
  rcases checkout_shape db inp now hoid with ⟨e, hchk⟩ | ⟨ds, sub, hvi, hb, hchk⟩
  · constructor
    · intro _
      rw [hchk]
    · intro o hok
      rw [hchk] at hok
      cases hok
  · constructor
    · intro hbad
      rw [hchk] at hbad
      simp [Except.isOk, Except.toBool] at hbad
    · intro o hok
      rw [hchk] at hok
      have hok' : Except.ok (checkout_new_order db inp now sub) = Except.ok o := hok
      have ho : checkout_new_order db inp now sub = o := Except.ok.inj hok'
      rw [hchk]
      refine ⟨?_, ?_, ?_⟩
      · rw [← ho]
      · exact ⟨ds, sub, hb, by rw [← ho]; rfl⟩
      · intro hnd it hit
        obtain ⟨hall, _⟩ := build_order_items_data_ok db inp.items ds sub hb
        obtain ⟨d, hd, hpe⟩ := forall₂_mem_left hall it hit
        have hpid : d.product.id = it.product_id := pricedEntry_product_id db it d hpe
        have hmapeq : inp.items.map CartItem.product_id = ds.map (fun d => d.product.id) :=
          forall₂_map_eq _ _ (fun a b hR => (pricedEntry_product_id db a b hR).symm) hall
        have hnd' : (ds.map (fun d => d.product.id)).Nodup := hmapeq ▸ hnd
        have hhit := reserve_products_find?_hit ds db.products d hd hnd'
        show ((reserve_products ds db.products).find?
            (fun p => p.id == it.product_id)).map Product.reserved_stock
          = (db.products.find? (fun p => p.id == it.product_id)).map
              (fun p => p.reserved_stock + it.quantity)
        rw [← hpid, hhit]
        have hfind : db.products.find? (fun x => x.id == d.product.id) = some d.product := by
          rw [hpid]
          exact hpe.1
        rw [hfind]
        simp [hpe.2.1]

/-- Witness: C2 (amended) at the concrete single-line checkout. -/
theorem checkout_atomic_distinct_products_witness :
    (((checkout sample_db sample_input 5).2.isOk = false →
        (checkout sample_db sample_input 5).1 = sample_db) ∧
      (∀ o : Order, (checkout sample_db sample_input 5).2 = Except.ok o →
        (checkout sample_db sample_input 5).1.orders = sample_db.orders ++ [o] ∧
        (∃ ds sub, build_order_items_data sample_db sample_input.items
            = Except.ok (ds, sub) ∧
          (checkout sample_db sample_input 5).1.order_items
            = sample_db.order_items ++ ds.map (mk_order_item o.id)) ∧
        ((sample_input.items.map CartItem.product_id).Nodup →
          ∀ it ∈ sample_input.items,
            ((checkout sample_db sample_input 5).1.products.find?
                (fun p => p.id == it.product_id)).map Product.reserved_stock
              = (sample_db.products.find? (fun p => p.id == it.product_id)).map
                  (fun p => p.reserved_stock + it.quantity)))) :=
  checkout_atomic_distinct_products sample_db sample_input 5 (by simp [sample_db])

/-! ### C1 — duplicate callback delivery (amended) -/

/-- C1 (amended): the reconciler has no terminal-state guard and re-applies
the same writes on a duplicate delivery.  For cancellation and failure
callbacks the second processing leaves the store exactly unchanged
(idempotent in effect); for a success callback the second processing changes
exactly one thing — the matched order's `paid_at` is re-stamped to the later
processing time. -/
theorem duplicate_callback_effect (db : DB) (cb : StkCallback) (t1 t2 : Nat)
    (t : TransactionLog) (o : Order)
    (ht : db.transactions.find? (fun x => cb.checkoutRequestID == some x.checkout_request_id)
        = some t)
    (ho : db.orders.find? (fun x => x.id == t.order) = some o) :
    (cb.resultCode ≠ some 0 →
      process_mpesa_callback (process_mpesa_callback db cb t1) cb t2
        = process_mpesa_callback db cb t1) ∧
    (cb.resultCode = some 0 →
      process_mpesa_callback (process_mpesa_callback db cb t1) cb t2
        = { process_mpesa_callback db cb t1 with
            orders := updateOrderRow (process_mpesa_callback db cb t1).orders o.id
              { o with payment_status := "paid", order_status := "confirmed",
                       paid_at := some t2 } }) := by
  have hpt := List.find?_some ht
  have hpo := List.find?_some ho
  constructor
  · intro hrc0
    by_cases hrc1 : cb.resultCode = some 1
    · have h1 := process_cancel_eq db cb t1 t o ht ho hrc1
      have ht1 : (process_mpesa_callback db cb t1).transactions.find?
          (fun x => cb.checkoutRequestID == some x.checkout_request_id)
          = some { t with transaction_type := "user_cancel", raw_response := some cb } := by
        rw [h1]
        exact find?_update_row db.transactions _ TransactionLog.id t _ ht hpt
      have ho1 : (process_mpesa_callback db cb t1).orders.find? (fun x => x.id == t.order)
          = some { o with payment_status := "unpaid" } := by
        rw [h1]
        exact find?_update_row db.orders _ Order.id o _ ho hpo
      have h2 := process_cancel_eq (process_mpesa_callback db cb t1) cb t2 _ _ ht1 ho1 hrc1
      rw [h2, h1]
      congr 1
      · exact update_row_idem db.orders Order.id o.id _ rfl
      · exact update_row_idem db.transactions TransactionLog.id t.id _ rfl
    · have h1 := process_failed_eq db cb t1 t o ht ho hrc0 hrc1
      have ht1 : (process_mpesa_callback db cb t1).transactions.find?
          (fun x => cb.checkoutRequestID == some x.checkout_request_id)
          = some { t with transaction_type := "payment_failed"
                          response_code := str_of_result_code cb.resultCode
                          response_description := cb.resultDesc
                          raw_response := some cb } := by
        rw [h1]
        exact find?_update_row db.transactions _ TransactionLog.id t _ ht hpt
      have ho1 : (process_mpesa_callback db cb t1).orders.find? (fun x => x.id == t.order)
          = some { o with payment_status := "failed" } := by
        rw [h1]
        exact find?_update_row db.orders _ Order.id o _ ho hpo
      have h2 := process_failed_eq (process_mpesa_callback db cb t1) cb t2 _ _ ht1 ho1 hrc0 hrc1
      rw [h2, h1]
      congr 1
      · exact update_row_idem db.orders Order.id o.id _ rfl
      · exact update_row_idem db.transactions TransactionLog.id t.id _ rfl
  · intro hrc0
    have h1 := process_success_eq db cb t1 t o ht ho hrc0
    have ht1 : (process_mpesa_callback db cb t1).transactions.find?
        (fun x => cb.checkoutRequestID == some x.checkout_request_id)
        = some { t with transaction_type := "payment_success"
                        mpesa_receipt := extract_mpesa_receipt cb.items
                        response_code := "0"
                        response_description := "Payment successful"
                        raw_response := some cb } := by
      rw [h1]
      exact find?_update_row db.transactions _ TransactionLog.id t _ ht hpt
    have ho1 : (process_mpesa_callback db cb t1).orders.find? (fun x => x.id == t.order)
        = some { o with payment_status := "paid", order_status := "confirmed",
                        paid_at := some t1 } := by
      rw [h1]
      exact find?_update_row db.orders _ Order.id o _ ho hpo
    have h2 := process_success_eq (process_mpesa_callback db cb t1) cb t2 _ _ ht1 ho1 hrc0
    rw [h2, h1]
    congr 1
    exact update_row_idem db.transactions TransactionLog.id t.id _ rfl

/-- Witness: C1 (amended) at the concrete pending order — instantiated both
with the cancellation callback (second delivery is a strict no-op) and
handled through the same theorem for the success shape. -/
theorem duplicate_callback_effect_witness :
    ((cb_cancel.resultCode ≠ some 0 →
      process_mpesa_callback (process_mpesa_callback payment_db cb_cancel 100) cb_cancel 200
        = process_mpesa_callback payment_db cb_cancel 100) ∧
    (cb_cancel.resultCode = some 0 →
      process_mpesa_callback (process_mpesa_callback payment_db cb_cancel 100) cb_cancel 200
        = { process_mpesa_callback payment_db cb_cancel 100 with
            orders := updateOrderRow (process_mpesa_callback payment_db cb_cancel 100).orders
              pending_order.id
              { pending_order with payment_status := "paid", order_status := "confirmed",
                                   paid_at := some 200 } })) :=
  duplicate_callback_effect payment_db cb_cancel 100 200 initiated_tx pending_order
    (by decide) (by decide)

/-! ### C9 — order number uniqueness and immutability -/

/-- Rewriting the id-matched rows to a value whose number collides with no
other row preserves distinctness of the stored order numbers. -/
theorem update_row_nodup_num (l : List Order) (o' : Order)
    (hids : (l.map Order.id).Nodup) (hnum : (l.map Order.order_number).Nodup)
    (hno : ∀ x ∈ l, x.id ≠ o'.id → x.order_number ≠ o'.order_number) :
    ((updateOrderRow l o'.id o').map Order.order_number).Nodup := by
  induction l with
  | nil => simp [updateOrderRow]
  | cons a rest ih =>
      rw [List.map_cons] at hids hnum
      have hidsa := (List.nodup_cons.mp hids).1
      have hids' := (List.nodup_cons.mp hids).2
      have hnuma := (List.nodup_cons.mp hnum).1
      have hnum' := (List.nodup_cons.mp hnum).2
      have ihr := ih hids' hnum' (fun x hx => hno x (List.mem_cons_of_mem a hx))
      rw [updateOrderRow, List.map_cons, List.map_cons, List.nodup_cons]
      refine ⟨?_, ihr⟩
      by_cases hid : (a.id == o'.id) = true
      · rw [if_pos hid]
        have haid : a.id = o'.id := by simpa using hid
        intro hmem
        obtain ⟨z, hz, hznum⟩ := List.mem_map.mp hmem
        obtain ⟨y, hy, rfl⟩ := List.mem_map.mp hz
        have hyid : y.id ≠ o'.id := by
          intro heq
          exact hidsa (by rw [haid, ← heq]; exact List.mem_map_of_mem Order.id hy)
        rw [if_neg (by simpa using hyid)] at hznum
        exact hno y (List.mem_cons_of_mem a hy) hyid hznum
      · rw [if_neg hid]
        have haid : a.id ≠ o'.id := by simpa using hid
        intro hmem
        obtain ⟨z, hz, hznum⟩ := List.mem_map.mp hmem
        obtain ⟨y, hy, rfl⟩ := List.mem_map.mp hz
        by_cases hyid : (y.id == o'.id) = true
        · rw [if_pos hyid] at hznum
          exact hno a (List.mem_cons_self a rest) haid hznum.symm
        · rw [if_neg hyid] at hznum
          exact hnuma (hznum ▸ List.mem_map_of_mem Order.order_number hy)

/-- The callback reconciler never changes any stored order number (order
ids are assumed unique, as primary keys are). -/
theorem process_mpesa_callback_order_numbers (db : DB) (cb : StkCallback) (now2 : Nat)
    (hids : (db.orders.map Order.id).Nodup) :
    (process_mpesa_callback db cb now2).orders.map Order.order_number
      = db.orders.map Order.order_number := by
  unfold process_mpesa_callback
  split
  · rfl
  · rename_i t ht
    split
    · rfl
    · rename_i o ho
      have hom : o ∈ db.orders := List.mem_of_find?_eq_some ho
      have hkey : ∀ (v : Order), v.order_number = o.order_number →
          ∀ a ∈ db.orders, (a.id == o.id) = true → v.order_number = a.order_number := by
        intro v hv a ha hbeq
        have haeq : a = o := List.inj_on_of_nodup_map hids ha hom (by simpa using hbeq)
        rw [hv, haeq]
      split
      · exact map_update_row_eq db.orders Order.id Order.order_number o.id _ (hkey _ rfl)
      · split
        · exact map_update_row_eq db.orders Order.id Order.order_number o.id _ (hkey _ rfl)
        · exact map_update_row_eq db.orders Order.id Order.order_number o.id _ (hkey _ rfl)

/-- Dissection of a successful `Order.save`: the returned row is the input
stamped only when its number was empty, and the write path (update or
insert) passed the uniqueness check. -/
theorem order_save_ok_cases (db : DB) (o : Order) (now : Nat) (db' : DB) (o' : Order)
    (h : order_save db o now = Except.ok (db', o')) :
    o' = (if o.order_number = "" then { o with order_number := gen_order_number now } else o) ∧
    ((db'.orders = updateOrderRow db.orders o'.id o' ∧
        ∀ x ∈ db.orders, x.id ≠ o'.id → x.order_number ≠ o'.order_number) ∨
      (db'.orders = db.orders ++ [o'] ∧
        ∀ x ∈ db.orders, x.order_number ≠ o'.order_number)) := by
  simp only [order_save] at h
  set o2 := (if o.order_number = "" then { o with order_number := gen_order_number now } else o)
    with ho2
  split at h
  · split at h
    · cases h
    · rename_i hdupF
      injection h with h2
      rw [Prod.mk.injEq] at h2
      obtain ⟨rfl, rfl⟩ := h2
      refine ⟨rfl, Or.inl ⟨rfl, ?_⟩⟩
      intro x hx hxid hxnum
      apply hdupF
      rw [List.any_eq_true]
      exact ⟨x, hx, by simp [hxid, hxnum]⟩
  · split at h
    · cases h
    · rename_i hdupF
      injection h with h2
      rw [Prod.mk.injEq] at h2
      obtain ⟨rfl, rfl⟩ := h2
      refine ⟨rfl, Or.inr ⟨rfl, ?_⟩⟩
      intro x hx hxnum
      apply hdupF
      rw [List.any_eq_true]
      exact ⟨x, hx, by simp [hxnum]⟩

/-- C9: an order receives its `order_number` exactly once at creation —
`Order.save` stamps it only when it is empty and never changes an existing
number — the database unique constraint keeps stored numbers pairwise
distinct across every successful save, and callback processing never
rewrites a stored number. -/
theorem order_number_unique_and_immutable (db : DB) (o : Order) (now : Nat)
    (hids : (db.orders.map Order.id).Nodup)
    (hnum : (db.orders.map Order.order_number).Nodup) :
    (∀ (db' : DB) (o' : Order), order_save db o now = Except.ok (db', o') →
      (o.order_number ≠ "" → o'.order_number = o.order_number) ∧
      (o.order_number = "" → o'.order_number = gen_order_number now) ∧
      ((db'.orders.map Order.order_number).Nodup)) ∧
    (∀ cb now2, (process_mpesa_callback db cb now2).orders.map Order.order_number
        = db.orders.map Order.order_number) := by
  constructor
  · intro db' o' hsave
    obtain ⟨ho', hcases⟩ := order_save_ok_cases db o now db' o' hsave
    refine ⟨?_, ?_, ?_⟩
    · intro hne
      rw [ho', if_neg hne]
    · intro hemp
      rw [ho', if_pos hemp]
    · rcases hcases with ⟨hdb, hno⟩ | ⟨hdb, hno⟩
      · rw [hdb]
        exact update_row_nodup_num db.orders o' hids hnum hno
      · rw [hdb, List.map_append]
        refine List.Nodup.append hnum (by simp) ?_
        intro a ha hb
        obtain ⟨y, hy, rfl⟩ := List.mem_map.mp ha
        have hyo : y.order_number = o'.order_number := by simpa using hb
        exact hno y hy hyo
  · intro cb now2
    exact process_mpesa_callback_order_numbers db cb now2 hids

/-- Witness fixture: a fresh unsaved order (empty number, new id). -/
def fresh_order : Order :=
  { pending_order with id := 10, order_number := "" }

/-- Witness: C9 at the concrete store and a fresh order. -/
theorem order_number_unique_and_immutable_witness :
    ((∀ (db' : DB) (o' : Order), order_save payment_db fresh_order 123 = Except.ok (db', o') →
      (fresh_order.order_number ≠ "" → o'.order_number = fresh_order.order_number) ∧
      (fresh_order.order_number = "" → o'.order_number = gen_order_number 123) ∧
      ((db'.orders.map Order.order_number).Nodup)) ∧
    (∀ cb now2, (process_mpesa_callback payment_db cb now2).orders.map Order.order_number
        = payment_db.orders.map Order.order_number)) :=
  order_number_unique_and_immutable payment_db fresh_order 123 (by decide) (by decide)

/-! ### C8 — empty-cart checkout -/

/-- C8: a checkout request whose item list is empty fails with the
empty-cart error and leaves the store completely unchanged — no `Order` row
is created and no product stock counter is modified. -/
theorem empty_cart_checkout_rejected (db : DB) (inp : CheckoutInput) (now : Nat)
    (h : inp.items = []) :
    checkout db inp now = (db, Except.error CheckoutError.emptyCart) := by
  unfold checkout validate_checkout
  rw [h]
  rfl

/-- Witness: C8 at the concrete store and an empty-cart request. -/
theorem empty_cart_checkout_rejected_witness :
    checkout sample_db sample_empty_input 7
      = (sample_db, Except.error CheckoutError.emptyCart) :=
  empty_cart_checkout_rejected sample_db sample_empty_input 7 rfl

/-! ### C10 — STK amount truncation -/

/-- C10: the `Amount` field of the STK push payload for an order is
`int(order.total_amount)` (truncation), and whenever the non-negative total
has a non-zero fractional part the amount requested from the customer is
strictly less than the order total. -/
theorem stk_amount_truncation (o : Order) (phone : String)
    (h0 : 0 ≤ o.total_amount) :
    (stk_push_payload_for o phone).amount = python_int o.total_amount ∧
    (o.total_amount ≠ (⌊o.total_amount⌋ : ℚ) →
      ((stk_push_payload_for o phone).amount : ℚ) < o.total_amount) := by
  constructor
  · rfl
  · intro hfrac
    have hamt : (stk_push_payload_for o phone).amount = ⌊o.total_amount⌋ := by
      simp [stk_push_payload_for, initiate_stk_push_payload, python_int, h0]
    rw [hamt]
    exact lt_of_le_of_ne (Int.floor_le _) (fun hcontra => hfrac hcontra.symm)

/-- Witness: C10 at an order whose total is 284.50. -/
theorem stk_amount_truncation_witness :
    0 ≤ fractional_order.total_amount ∧
    ((stk_push_payload_for fractional_order "254712345678").amount
        = python_int fractional_order.total_amount ∧
      (fractional_order.total_amount ≠ (⌊fractional_order.total_amount⌋ : ℚ) →
        ((stk_push_payload_for fractional_order "254712345678").amount : ℚ)
          < fractional_order.total_amount)) :=
  ⟨by decide, stk_amount_truncation fractional_order "254712345678" (by decide)⟩

/-! ### C5 — absence of a timeout sweep -/

/-- C5 (code evidence): the Celery beat schedule registers exactly one
periodic task — the products low-stock check — and firing any sequence of
scheduled tasks leaves the store bit-for-bit unchanged; in particular no
scheduled task ever moves an initiated transaction to `stk_timeout` or
releases its order's stock. -/
theorem no_timeout_sweep_in_beat_schedule (db : DB) (names : List String)
    (h : ∀ n ∈ names, n ∈ beat_schedule.map Prod.snd) :
    run_beat names db = db := by
  induction names with
  | nil => rfl
  | cons n rest ih =>
      have hn : n = "products.tasks.check_low_stock" := by
        have hmem := h n (List.mem_cons_self n rest)
        simpa [beat_schedule] using hmem
      have hstep : run_beat_task n db = db := by
        rw [hn]; rfl
      show run_beat rest (run_beat_task n db) = db
      rw [hstep]
      exact ih (fun m hm => h m (List.mem_cons_of_mem n hm))

/-- Witness: C5 — two firings of the scheduled beat task leave the store
with the pending `stk_initiate` transaction unchanged. -/
theorem no_timeout_sweep_in_beat_schedule_witness :
    run_beat ["products.tasks.check_low_stock", "products.tasks.check_low_stock"] payment_db
      = payment_db :=
  no_timeout_sweep_in_beat_schedule payment_db
    ["products.tasks.check_low_stock", "products.tasks.check_low_stock"] (by decide)

/-! ### Counterexamples C1, C2, C4 -/

/-- C1 counterexample: after a success callback the matched transaction is
terminal (`payment_success`), yet delivering the identical callback a second
time mutates the store — the order's `paid_at` is re-stamped to the later
processing time, so duplicate delivery is not side-effect free. -/
theorem duplicate_success_callback_restamps_paid_at :
    ((process_mpesa_callback payment_db cb_success 100).transactions.map
        TransactionLog.transaction_type = ["payment_success"]) ∧
    process_mpesa_callback (process_mpesa_callback payment_db cb_success 100) cb_success 200
      ≠ process_mpesa_callback payment_db cb_success 100 ∧
    ((process_mpesa_callback (process_mpesa_callback payment_db cb_success 100)
        cb_success 200).orders.map Order.paid_at = [some 200]) := by
  decide

/-- C2 counterexample: a cart listing the same product on two lines (5 + 5
units against a stock of 5) passes validation line by line, checkout
succeeds and creates the order and both items, but both reservation writes
start from the pre-checkout snapshot: the final `reserved_stock` is 5, not
the claimed cumulative 10 — the first line's increment is lost. -/
theorem checkout_duplicate_line_lost_update :
    ((checkout sample_db sample_dup_input 20250101).2.isOk = true) ∧
    ((checkout sample_db sample_dup_input 20250101).1.order_items.length = 2) ∧
    ((checkout sample_db sample_dup_input 20250101).1.products.map Product.reserved_stock
        = [5]) ∧
    ¬ ((checkout sample_db sample_dup_input 20250101).1.products.map Product.reserved_stock
        = [10]) := by
  decide

/-- C4 counterexample: processing a failure callback (`ResultCode = 1032`)
for the pending order marks the transaction `payment_failed` and the order
`failed`, but product rows are untouched: `reserved_stock` stays 2 instead
of being decremented by the order item's quantity to 0 — the reservation is
not released. -/
theorem failed_callback_does_not_release_stock :
    ((process_mpesa_callback payment_db cb_failed 100).transactions.map
        TransactionLog.transaction_type = ["payment_failed"]) ∧
    ((process_mpesa_callback payment_db cb_failed 100).orders.map Order.payment_status
        = ["failed"]) ∧
    ((process_mpesa_callback payment_db cb_failed 100).products = payment_db.products) ∧
    ((process_mpesa_callback payment_db cb_failed 100).products.map Product.reserved_stock
        = [2]) ∧
    ¬ ((process_mpesa_callback payment_db cb_failed 100).products.map Product.reserved_stock
        = [0]) := by
  decide

end AutopartsKenya
